import Mathlib

/-!
Formal model of the physical-quantity derivation pipeline of the
jwebbinar_prep notebooks (Cubeviz black-hole mass demo).

Quantities are represented by their numeric values in fixed canonical units
(wavelengths in micrometers, velocities in km/s, masses in solar masses,
lengths in parsecs, angles as stated per definition); the astropy `.to`
conversions between commensurable units are value-preserving changes of
representation and are modelled as arithmetic on the canonical values,
with the arcsecond-to-radian conversion made explicit because the notebook
performs it explicitly.
-/

set_option maxRecDepth 16000

namespace Jwebbinar

noncomputable section

/-- Speed of light in km/s, the SI defining value used by astropy constants. -/
def c_kms : ℝ := 299792.458

/-- Gravitational constant, SI value carried by `astropy.constants.G`
(the notebook imports it as `G`). Only its positivity matters here. -/
def G : ℝ := 6.6743e-11

/-- Relativistic Doppler conversion of a wavelength to a velocity, anchored
at a reference (rest) wavelength: the wavelength branch of astropy
`u.doppler_relativistic`, namely `v = (x^2 - restwav^2) / (restwav^2 + x^2) * c`.
The notebook delegates to this equivalence in both velocity computations. -/
def doppler_relativistic_to_velocity (restwav x : ℝ) : ℝ :=
  (x ^ 2 - restwav ^ 2) / (restwav ^ 2 + x ^ 2) * c_kms

/-- Velocity dispersion computed by the notebook:
`(centroid_wavelength + sigma_width).to(km/s, u.doppler_relativistic(centroid_wavelength))`. -/
def velocity_dispersion (centroid_wavelength sigma_width : ℝ) : ℝ :=
  doppler_relativistic_to_velocity centroid_wavelength (centroid_wavelength + sigma_width)

/-- Rotation velocity computed by the notebook:
`wavelength_centroids[1].to(km/s, u.doppler_relativistic(wavelength_centroids.mean()))`
for the two measured centroids. -/
def rotation_velocity (centroid0 centroid1 : ℝ) : ℝ :=
  doppler_relativistic_to_velocity ((centroid0 + centroid1) / 2) centroid1

/-- Black-hole mass from the M-sigma relation, exactly as the notebook cell
computes it: `bh_mass = 1.349e8 * u.M_sun * (velocity_dispersion / (200 * u.km / u.s)) ** 4.02`.
The argument is the velocity dispersion in km/s; the result is in solar masses.
The exponent 4.02 is a real (non-integer) power. -/
def bh_mass (velocity_dispersion : ℝ) : ℝ :=
  1.349e8 * (velocity_dispersion / 200) ^ (4.02 : ℝ)

/-- Coefficient of the M-sigma relation named in the spec (1.349e8 solar masses). -/
def msigma_coefficient : ℝ := 1.349e8

/-- Pivot velocity of the M-sigma relation named in the spec (200 km/s). -/
def msigma_pivot : ℝ := 200

/-- Exponent of the M-sigma relation named in the spec (4.02). -/
def msigma_exponent : ℝ := 4.02

/-- Fractional error as the notebook computes it:
`fractional_error = (bh_mass - u.M_sun * 10**log10_bh_mass_lit) / bh_mass`,
i.e. `(measured - reference) / measured` with the measured value in the
denominator. -/
def fractional_error (measured reference : ℝ) : ℝ :=
  (measured - reference) / measured

/-- Conversion of an angle from arcseconds to radians (the astropy
`.to_value(u.rad)` step applied to an arcsecond-valued angle):
one arcsecond is pi/648000 radians. -/
def arcsec_to_rad (angle_arcsec : ℝ) : ℝ :=
  angle_arcsec * (Real.pi / 648000)

/-- Projected distance from the galaxy center, exactly as the notebook cell
computes it: `(ngc7319_distance * angular_separation.to_value(u.rad)).to(u.pc) / 2`.
The distance is in parsecs, the angular separation in arcseconds; note the
division by 2 after the small-angle product. -/
def projected_distance_from_center (distance_pc angular_separation_arcsec : ℝ) : ℝ :=
  distance_pc * arcsec_to_rad angular_separation_arcsec / 2

/-- Literature distance to NGC 7319 used by the notebook, in parsecs
(98.1 Mpc, Bitsakis et al. 2011). -/
def ngc7319_distance : ℝ := 98.1e6

/-- Minimum enclosed mass, exactly as the notebook cell computes it:
`min_enclosed_mass = (projected_distance_from_center * rotation_velocity**2 / G).to(u.M_sun)`. -/
def min_enclosed_mass (radius velocity : ℝ) : ℝ :=
  radius * velocity ^ 2 / G

/-- Volume of the central sphere, exactly as the notebook cell computes it:
`volume = 4/3 * np.pi * projected_distance_from_center ** 3`. -/
def volume (radius : ℝ) : ℝ :=
  4 / 3 * Real.pi * radius ^ 3

/-- Density of the central region, exactly as the notebook cell computes it:
`density = min_enclosed_mass / volume`. -/
def density (mass radius : ℝ) : ℝ :=
  mass / volume radius

/-- Operation following the words of the spec contract for comparison with
the code: `angular_to_projected_distance(angular_separation, distance_to_target)`
returns `distance_to_target * angle_in_radians` (small-angle approximation,
with no halving step). -/
def angular_to_projected_distance (angle_rad distance_to_target : ℝ) : ℝ :=
  distance_to_target * angle_rad

/-- Number of user-selected spectral subsets as the notebook computes it:
`available_spectral_subsets = len(line_analysis.spectral_subset.choices) - 1`
(Python integer arithmetic; the first choice is the default entire spectrum). -/
def available_spectral_subsets (choices : List String) : ℤ :=
  (choices.length : ℤ) - 1

/-- Errors surfaced by the notebook cells. The notebook only ever raises the
Python built-in `Exception` carrying a message string, rendered here by
`pythonException`. The `insufficientInputError` constructor renders, in the
same type, the typed `InsufficientInputError` that the spec error taxonomy
prescribes, so that claims about the kind of the raised error are statable
against the code; the notebook never constructs it. -/
inductive RaisedError where
  | pythonException (msg : String) : RaisedError
  | insufficientInputError : RaisedError
deriving DecidableEq

/-- Message of the untyped `Exception` raised by both guarded notebook cells
when no spectral subset has been selected. -/
def pick_line_msg : String :=
  "Please select a spectral region in Cubeviz centered on an emission line to continue with the tutorial."

/-- Velocity-dispersion notebook cell: if at least one spectral subset is
available (Python truthiness of `available_spectral_subsets`, i.e. nonzero),
compute the velocity dispersion from the measured centroid and sigma width;
otherwise raise the untyped `Exception` with the instructive message. -/
def velocity_dispersion_cell (choices : List String)
    (centroid_wavelength sigma_width : ℝ) : Except RaisedError ℝ :=
  if available_spectral_subsets choices ≠ 0 then
    Except.ok (velocity_dispersion centroid_wavelength sigma_width)
  else
    Except.error (RaisedError.pythonException pick_line_msg)

/-- Wavelength-centroids notebook cell: same guard structure as the
velocity-dispersion cell; on success it returns the centroids measured by
the external Line Analysis collaborator, otherwise it raises the same
untyped `Exception`. -/
def wavelength_centroids_cell (choices : List String)
    (measured_centroids : List ℝ) : Except RaisedError (List ℝ) :=
  if available_spectral_subsets choices ≠ 0 then
    Except.ok measured_centroids
  else
    Except.error (RaisedError.pythonException pick_line_msg)

/-- Modelled from the spec: the error taxonomy of section 7
(InvalidUnitError, DomainError, InsufficientInputError). The notebook code
under src/ defines no such types; this type exists only to state the
spec-side contracts for comparison. -/
inductive PipelineError where
  | invalidUnitError : PipelineError
  | domainError : PipelineError
  | insufficientInputError : PipelineError
deriving DecidableEq

/-- Modelled from the spec: `black_hole_mass_from_dispersion` as the spec
contract prescribes it, guarding against non-positive velocity dispersion
with a typed `DomainError` instead of returning a value. -/
def black_hole_mass_from_dispersion_spec (sigma_velocity : ℝ) :
    Except PipelineError ℝ :=
  if 0 < sigma_velocity then
    Except.ok (msigma_coefficient * (sigma_velocity / msigma_pivot) ^ msigma_exponent)
  else
    Except.error PipelineError.domainError

/-- Helper: the non-integer power 4.02 as the 50th root of the 201st power. -/
lemma rpow_402_as_root {x : ℝ} (hx : 0 ≤ x) :
    x ^ (4.02 : ℝ) = (x ^ (201 : ℕ)) ^ (((50 : ℕ) : ℝ))⁻¹ := by
  rw [← Real.rpow_natCast_mul hx 201]
  congr 1
  push_cast
  norm_num

/-- Helper: lower-bound a 4.02 power by comparing integer powers. -/
lemma rpow_bracket_lower {x a : ℝ} (hx : 0 ≤ x) (ha : 0 ≤ a)
    (h : a ^ (50 : ℕ) < x ^ (201 : ℕ)) : a < x ^ (4.02 : ℝ) := by
  calc a = (a ^ (50 : ℕ)) ^ (((50 : ℕ) : ℝ))⁻¹ :=
        (Real.pow_rpow_inv_natCast ha (by norm_num)).symm
    _ < (x ^ (201 : ℕ)) ^ (((50 : ℕ) : ℝ))⁻¹ :=
        Real.rpow_lt_rpow (by positivity) h (by positivity)
    _ = x ^ (4.02 : ℝ) := (rpow_402_as_root hx).symm

/-- Helper: upper-bound a 4.02 power by comparing integer powers. -/
lemma rpow_bracket_upper {x b : ℝ} (hx : 0 ≤ x) (hb : 0 ≤ b)
    (h : x ^ (201 : ℕ) < b ^ (50 : ℕ)) : x ^ (4.02 : ℝ) < b := by
  calc x ^ (4.02 : ℝ) = (x ^ (201 : ℕ)) ^ (((50 : ℕ) : ℝ))⁻¹ := rpow_402_as_root hx
    _ < (b ^ (50 : ℕ)) ^ (((50 : ℕ) : ℝ))⁻¹ :=
        Real.rpow_lt_rpow (by positivity) h (by positivity)
    _ = b := Real.pow_rpow_inv_natCast hb (by norm_num)

/-- Helper: the M-sigma formula evaluates to zero at zero dispersion. -/
lemma bh_mass_zero : bh_mass 0 = 0 := by
  unfold bh_mass
  rw [zero_div, Real.zero_rpow (by norm_num), mul_zero]

/-- Helper: numeric bracket for the M-sigma mass at 130 km/s. -/
lemma bh_mass_130_bounds : (2.379e7 : ℝ) < bh_mass 130 ∧ bh_mass 130 < (2.4e7 : ℝ) := by
  unfold bh_mass
  rw [show (130 : ℝ) / 200 = 13 / 20 by norm_num]
  constructor
  · have hlow : (441 / 2500 : ℝ) < (13 / 20 : ℝ) ^ (4.02 : ℝ) :=
      rpow_bracket_lower (by norm_num) (by norm_num) (by norm_num)
    linarith
  · have hup : (13 / 20 : ℝ) ^ (4.02 : ℝ) < (1779 / 10000 : ℝ) :=
      rpow_bracket_upper (by norm_num) (by norm_num) (by norm_num)
    linarith

/-- C1: for every positive velocity dispersion, `bh_mass` returns exactly
`coefficient * (sigma_velocity / pivot) ^ exponent` with coefficient 1.349e8
solar masses, pivot 200 km/s and exponent 4.02. -/
theorem C1_bh_mass_formula (sigma_velocity : ℝ) (hs : 0 < sigma_velocity) :
    bh_mass sigma_velocity
      = msigma_coefficient * (sigma_velocity / msigma_pivot) ^ msigma_exponent := rfl

/-- Witness for C1 at sigma_velocity = 130 km/s. -/
theorem C1_bh_mass_formula_witness :
    (0 : ℝ) < 130 ∧
      bh_mass 130 = msigma_coefficient * ((130 : ℝ) / msigma_pivot) ^ msigma_exponent :=
  ⟨by norm_num, C1_bh_mass_formula 130 (by norm_num)⟩

/-- C5: a zero wavelength shift through the relativistic Doppler equivalence
anchored at any positive reference wavelength gives a velocity of exactly 0,
in both notebook uses (velocity dispersion with zero sigma width, rotation
velocity with two equal centroids). -/
theorem C5_zero_shift_zero_velocity (w : ℝ) (hw : 0 < w) :
    doppler_relativistic_to_velocity w w = 0 ∧
      velocity_dispersion w 0 = 0 ∧ rotation_velocity w w = 0 := by
  refine ⟨?_, ?_, ?_⟩
  · unfold doppler_relativistic_to_velocity
    rw [sub_self, zero_div, zero_mul]
  · unfold velocity_dispersion doppler_relativistic_to_velocity
    rw [add_zero, sub_self, zero_div, zero_mul]
  · unfold rotation_velocity doppler_relativistic_to_velocity
    rw [show (w + w) / 2 = w by ring, sub_self, zero_div, zero_mul]

/-- Witness for C5 at the reference wavelength 4.861 micrometers. -/
theorem C5_zero_shift_witness :
    (0 : ℝ) < 4.861 ∧ doppler_relativistic_to_velocity 4.861 4.861 = 0 :=
  ⟨by norm_num, (C5_zero_shift_zero_velocity 4.861 (by norm_num)).1⟩

/-- C6: the M-sigma mass is strictly increasing in the velocity dispersion on
positive dispersions. -/
theorem C6_bh_mass_strict_mono (s1 s2 : ℝ) (h1 : 0 < s1) (h12 : s1 < s2) :
    bh_mass s1 < bh_mass s2 := by
  unfold bh_mass
  have hp : (s1 / 200) ^ (4.02 : ℝ) < (s2 / 200) ^ (4.02 : ℝ) :=
    Real.rpow_lt_rpow (by positivity) (by linarith) (by norm_num)
  have hc : (0 : ℝ) < 1.349e8 := by norm_num
  exact mul_lt_mul_of_pos_left hp hc

/-- Witness for C6 at the pair 100 km/s and 200 km/s. -/
theorem C6_bh_mass_strict_mono_witness :
    (0 : ℝ) < 100 ∧ (100 : ℝ) < 200 ∧ bh_mass 100 < bh_mass 200 :=
  ⟨by norm_num, by norm_num, C6_bh_mass_strict_mono 100 200 (by norm_num) (by norm_num)⟩

/-- C8: the enclosed mass is `radius * velocity^2 / G`; it is 0 at radius 0 for
every velocity, and non-negative for every non-negative radius regardless of
the sign of the velocity, since the velocity enters squared. -/
theorem C8_enclosed_mass (radius velocity : ℝ) (hr : 0 ≤ radius) :
    min_enclosed_mass radius velocity = radius * velocity ^ 2 / G ∧
      min_enclosed_mass 0 velocity = 0 ∧
      0 ≤ min_enclosed_mass radius velocity := by
  refine ⟨rfl, ?_, ?_⟩
  · unfold min_enclosed_mass
    rw [zero_mul, zero_div]
  · unfold min_enclosed_mass
    exact div_nonneg (mul_nonneg hr (sq_nonneg velocity)) (by norm_num [G])

/-- Witness for C8 at radius 2 pc and a negative velocity of -3 km/s. -/
theorem C8_enclosed_mass_witness :
    (0 : ℝ) ≤ 2 ∧ min_enclosed_mass 2 (-3) = 2 * (-3) ^ 2 / G ∧
      0 ≤ min_enclosed_mass 2 (-3) :=
  ⟨by norm_num, (C8_enclosed_mass 2 (-3) (by norm_num)).1,
    (C8_enclosed_mass 2 (-3) (by norm_num)).2.2⟩

/-- C9: the fractional error is `(measured - reference) / measured` with the
measured value as denominator, hence it is exactly 0 when measured equals
reference and measured is non-zero. -/
theorem C9_fractional_error_denominator (m : ℝ) (hm : m ≠ 0) :
    (∀ reference : ℝ, fractional_error m reference = (m - reference) / m) ∧
      fractional_error m m = 0 := by
  refine ⟨fun reference => rfl, ?_⟩
  unfold fractional_error
  rw [sub_self, zero_div]

/-- Witness for C9 at the measured value 5. -/
theorem C9_fractional_error_witness : (5 : ℝ) ≠ 0 ∧ fractional_error 5 5 = 0 :=
  ⟨by norm_num, (C9_fractional_error_denominator 5 (by norm_num)).2⟩

/-- C10: the radius fed to the enclosed-mass and density steps is half the
small-angle projected length, `distance * angle_in_radians / 2`: the code
result equals the spec operation `angular_to_projected_distance` divided by 2,
the enclosed mass is computed at that halved radius, and the density sphere
uses the same halved radius. -/
theorem C10_halved_radius (D a v : ℝ) :
    projected_distance_from_center D a
        = angular_to_projected_distance (arcsec_to_rad a) D / 2 ∧
      min_enclosed_mass (projected_distance_from_center D a) v
        = D * arcsec_to_rad a / 2 * v ^ 2 / G ∧
      density (min_enclosed_mass (projected_distance_from_center D a) v)
          (projected_distance_from_center D a)
        = min_enclosed_mass (projected_distance_from_center D a) v
            / (4 / 3 * Real.pi * (D * arcsec_to_rad a / 2) ^ 3) :=
  ⟨rfl, rfl, rfl⟩

/-- C2 counterexample: a non-positive velocity dispersion (zero) passed to the
M-sigma step returns the mass 0 instead of raising a DomainError, while the
spec-modelled operation returns the typed DomainError there; the code performs
no precondition validation. -/
theorem C2_counterexample :
    bh_mass 0 = 0 ∧
      black_hole_mass_from_dispersion_spec 0 = Except.error PipelineError.domainError := by
  constructor
  · unfold bh_mass
    rw [zero_div, Real.zero_rpow (by norm_num), mul_zero]
  · unfold black_hole_mass_from_dispersion_spec
    rw [if_neg (lt_irrefl 0)]

/-- C2 amended: the notebook operations perform no validation of their own and
raise no typed InvalidUnitError or DomainError; the M-sigma step at the
non-positive dispersion 0 returns the mass 0, and the only error the code
raises is the untyped built-in Exception of the spectral-subset guard. -/
theorem C2_no_typed_errors_amended :
    bh_mass 0 = 0 ∧
      velocity_dispersion_cell ["Entire Spectrum"] 4.861 0.001
        = Except.error (RaisedError.pythonException pick_line_msg) := by
  refine ⟨bh_mass_zero, ?_⟩
  unfold velocity_dispersion_cell available_spectral_subsets
  norm_num

/-- C3 counterexample: at distance 2 pc and angular separation 648000 arcsec
(which is exactly pi radians) the code returns pi, not the claimed
2 * pi = distance times the angle in radians. -/
theorem C3_counterexample :
    projected_distance_from_center 2 648000 ≠ 2 * arcsec_to_rad 648000 := by
  unfold projected_distance_from_center arcsec_to_rad
  have hpi := Real.pi_pos
  intro h
  rw [show (648000 : ℝ) * (Real.pi / 648000) = Real.pi by field_simp] at h
  have h2 : Real.pi = 2 * Real.pi := by linarith [h]
  linarith

/-- C3 amended: for every positive distance the operation returns the distance
times the angular separation expressed in radians, divided by 2 (the
distance from the center, half the projected separation), with the angle
converted from arcseconds to radians before the multiplication. -/
theorem C3_projected_distance_amended (distance_pc angular_separation_arcsec : ℝ)
    (hD : 0 < distance_pc) :
    projected_distance_from_center distance_pc angular_separation_arcsec
      = angular_to_projected_distance (arcsec_to_rad angular_separation_arcsec)
          distance_pc / 2 := rfl

/-- Witness for the amended C3 at the literature distance and 1 arcsec. -/
theorem C3_projected_distance_witness :
    (0 : ℝ) < 98.1e6 ∧
      projected_distance_from_center 98.1e6 1
        = angular_to_projected_distance (arcsec_to_rad 1) 98.1e6 / 2 :=
  ⟨by norm_num, C3_projected_distance_amended 98.1e6 1 (by norm_num)⟩

/-- C4 counterexample: with only the default choice available (no spectral
subset selected), the guarded cell raises the untyped built-in Exception, not
a typed InsufficientInputError. -/
theorem C4_counterexample :
    wavelength_centroids_cell ["Entire Spectrum"] []
      ≠ Except.error RaisedError.insufficientInputError := by
  unfold wavelength_centroids_cell available_spectral_subsets
  norm_num
  simp

/-- C4 amended: whenever the collaborator reports no selected spectral subset
(the choice count minus one is zero), both guarded cells fail immediately with
the untyped built-in Exception carrying the instructive message — no derived
quantity is computed and no default region is substituted — but the error is
not the typed InsufficientInputError the spec prescribes. -/
theorem C4_untyped_guard_amended (choices : List String)
    (centroid_wavelength sigma_width : ℝ) (measured_centroids : List ℝ)
    (h : available_spectral_subsets choices = 0) :
    velocity_dispersion_cell choices centroid_wavelength sigma_width
        = Except.error (RaisedError.pythonException pick_line_msg) ∧
      wavelength_centroids_cell choices measured_centroids
        = Except.error (RaisedError.pythonException pick_line_msg) := by
  constructor
  · unfold velocity_dispersion_cell
    rw [if_neg (by simp [h])]
  · unfold wavelength_centroids_cell
    rw [if_neg (by simp [h])]

/-- Witness for the amended C4 with only the default entire-spectrum choice. -/
theorem C4_untyped_guard_witness :
    available_spectral_subsets ["Entire Spectrum"] = 0 ∧
      velocity_dispersion_cell ["Entire Spectrum"] 4.861 0.001
        = Except.error (RaisedError.pythonException pick_line_msg) :=
  ⟨by decide,
    (C4_untyped_guard_amended ["Entire Spectrum"] 4.861 0.001 [] (by decide)).1⟩

/-- C7 counterexample: the M-sigma mass at 130 km/s is not approximately
1.69e7 solar masses — it misses that figure by far more than ten percent. -/
theorem C7_counterexample : ¬ |bh_mass 130 - 1.69e7| ≤ 1.69e7 / 10 := by
  have h := bh_mass_130_bounds.1
  rw [not_le]
  calc (1.69e7 : ℝ) / 10 < bh_mass 130 - 1.69e7 := by linarith
    _ ≤ |bh_mass 130 - 1.69e7| := le_abs_self _

/-- C7 amended: the M-sigma mass at 130 km/s with coefficient 1.349e8 solar
masses, pivot 200 km/s and exponent 4.02 is approximately 2.39e7 solar masses
(within one percent of that figure). -/
theorem C7_msigma_scenario_amended : |bh_mass 130 - 2.39e7| ≤ 2.39e7 / 100 := by
  have h1 := bh_mass_130_bounds.1
  have h2 := bh_mass_130_bounds.2
  rw [abs_le]
  constructor <;> linarith

end

end Jwebbinar
